import Mathlib

/-!
Verification of the Retell-to-Groq relay server (`llm_groq.py`, `server.py`)
against its specification. The Python code is shallowly embedded: dictionaries
become structures with `Option` fields for keys read via `.get`, JSON frames
become a tagged union, the upstream completion stream becomes an explicit list
of chunks together with a failure flag, and every handler becomes a total Lean
function returning the ordered list of frames it sends plus observability flags
(error logged, LLM invoked).
-/

/-- One transcript entry as received from Retell: `{"role": ..., "content": ...}`
(`llm_groq.py`, `_conversation_to_chat_messages` reads `utterance["role"]` and
`utterance["content"]`). -/
structure Utterance where
  role : String
  content : String
deriving DecidableEq, Repr

/-- One Groq/OpenAI-style chat message `{"role": ..., "content": ...}`. -/
structure ChatMessage where
  role : String
  content : String
deriving DecidableEq, Repr

/-- The fixed system instruction (`SYSTEM_PROMPT` in `llm_groq.py`). The spec
treats the literal conversational prompt content as an opaque configuration
string, not a control-flow artifact, and no claim inspects its text, so the
multi-page prompt is abridged to its opening line here; every theorem depends
only on this constant being the single fixed system-message content. -/
def SYSTEM_PROMPT : String :=
  "You are Megan from Go Green Solar."

/-- `GroqLlmClient._conversation_to_chat_messages` (`llm_groq.py` lines 93-101):
starts from an empty list and appends, per utterance, a message whose role is
"assistant" when the utterance role is "agent" and "user" otherwise, with the
content carried over unchanged. The Python `for`/`append` loop is embedded as a
left fold that appends to the accumulator. -/
def conversation_to_chat_messages (transcript : List Utterance) : List ChatMessage :=
  transcript.foldl
    (fun messages utterance =>
      messages ++
        [{ role := if utterance.role = "agent" then "assistant" else "user",
           content := utterance.content }])
    []

/-- An inbound Retell request dictionary, with `Option` for every key the code
reads via `.get` (`interaction_type`, `transcript`, `timestamp`).
`response_id` is read with mandatory indexing `request["response_id"]` in
`draft_response`, so it is modelled as a plain field. -/
structure Request where
  interaction_type : Option String
  response_id : Int
  transcript : Option (List Utterance)
  timestamp : Option Int
deriving DecidableEq, Repr

/-- The synthetic silence-nudge user message appended by `_prepare_prompt` when
`interaction_type == "reminder_required"` (`llm_groq.py` lines 116-120). -/
def nudge_message : ChatMessage :=
  { role := "user",
    content := "(The caller has been silent for a moment. Gently check in or re-engage them.)" }

/-- `GroqLlmClient._prepare_prompt` (`llm_groq.py` lines 103-122): a system
message, then — when the transcript is present and non-empty (Python truthiness
of `request.get("transcript")`) — the last 10 adapted transcript messages
(`chat_messages[-10:]`), then the silence nudge iff the interaction type is
"reminder_required". The Python slice `l[-10:]` is `l.drop (l.length - 10)`. -/
def prepare_prompt (request : Request) : List ChatMessage :=
  let messages : List ChatMessage := [{ role := "system", content := SYSTEM_PROMPT }]
  let messages :=
    match request.transcript with
    | none => messages
    | some transcript =>
      if transcript.isEmpty then messages
      else
        let chat_messages := conversation_to_chat_messages transcript
        messages ++ chat_messages.drop (chat_messages.length - 10)
  if request.interaction_type = some "reminder_required" then
    messages ++ [nudge_message]
  else
    messages

/-- The transcript of a request with a missing transcript key treated as empty. -/
def request_transcript (request : Request) : List Utterance :=
  request.transcript.getD []

/-- The adapted transcript of a request. -/
def adapted_transcript (request : Request) : List ChatMessage :=
  conversation_to_chat_messages (request_transcript request)

/-- The transcript-derived portion of the assembled prompt: the last 10 adapted
messages (Python slice `[-10:]`). -/
def transcript_window (request : Request) : List ChatMessage :=
  (adapted_transcript request).drop ((adapted_transcript request).length - 10)

/-- The optional tail of the assembled prompt: the silence nudge iff the
interaction type is "reminder_required". -/
def nudge_tail (request : Request) : List ChatMessage :=
  if request.interaction_type = some "reminder_required" then [nudge_message] else []

theorem foldl_append_eq_map (f : Utterance → ChatMessage) :
    ∀ (l : List Utterance) (acc : List ChatMessage),
      l.foldl (fun messages u => messages ++ [f u]) acc = acc ++ l.map f := by
  intro l
  induction l with
  | nil => intro acc; simp
  | cons u rest ih =>
    intro acc
    simp [List.foldl_cons, ih, List.append_assoc]

theorem conversation_to_chat_messages_eq_map (transcript : List Utterance) :
    conversation_to_chat_messages transcript =
      transcript.map
        (fun u => { role := if u.role = "agent" then "assistant" else "user",
                    content := u.content }) := by
  unfold conversation_to_chat_messages
  simpa using
    foldl_append_eq_map
      (fun u => { role := if u.role = "agent" then "assistant" else "user",
                  content := u.content })
      transcript []

/-- Claim C3: for every transcript of length L, `_conversation_to_chat_messages`
returns exactly L chat messages in the same order, mapping role "agent" to
"assistant" and any other role to "user" with content unchanged; the empty
transcript yields the empty list. -/
theorem C3_transcript_adapter (transcript : List Utterance) :
    conversation_to_chat_messages transcript =
      transcript.map
        (fun u => { role := if u.role = "agent" then "assistant" else "user",
                    content := u.content }) ∧
    (conversation_to_chat_messages transcript).length = transcript.length ∧
    conversation_to_chat_messages ([] : List Utterance) = [] := by
  refine ⟨conversation_to_chat_messages_eq_map transcript, ?_, rfl⟩
  rw [conversation_to_chat_messages_eq_map]
  simp

theorem prepare_prompt_eq (request : Request) :
    prepare_prompt request =
      { role := "system", content := SYSTEM_PROMPT } ::
        (transcript_window request ++ nudge_tail request) := by
  unfold prepare_prompt transcript_window nudge_tail adapted_transcript request_transcript
  cases h : request.transcript with
  | none =>
    simp only [Option.getD, conversation_to_chat_messages]
    by_cases hr : request.interaction_type = some "reminder_required" <;>
      simp [hr]
  | some transcript =>
    by_cases he : transcript.isEmpty
    · have : transcript = [] := List.isEmpty_iff.mp he
      subst this
      by_cases hr : request.interaction_type = some "reminder_required" <;>
        simp [hr, conversation_to_chat_messages]
    · by_cases hr : request.interaction_type = some "reminder_required" <;>
        simp [he, hr]

/-- Claim C4: the assembled prompt begins with exactly one system message; its
transcript-derived portion is a suffix of the adapted transcript of length
`min L 10` (so truncation drops the oldest turns), kept in original order; no
later message carries the system role; and a missing transcript behaves exactly
like an empty one. -/
theorem C4_prompt_assembler (request : Request) :
    prepare_prompt request =
      { role := "system", content := SYSTEM_PROMPT } ::
        (transcript_window request ++ nudge_tail request) ∧
    (transcript_window request).length = min (request_transcript request).length 10 ∧
    (adapted_transcript request).take ((adapted_transcript request).length - 10) ++
        transcript_window request = adapted_transcript request ∧
    ((transcript_window request ++ nudge_tail request).all
        fun m => m.role ≠ "system") = true ∧
    prepare_prompt { request with transcript := none } =
      prepare_prompt { request with transcript := some [] } := by
  refine ⟨prepare_prompt_eq request, ?_, ?_, ?_, ?_⟩
  · unfold transcript_window
    have hlen : (adapted_transcript request).length = (request_transcript request).length := by
      unfold adapted_transcript
      rw [conversation_to_chat_messages_eq_map]
      simp
    rw [List.length_drop, hlen]
    omega
  · exact List.take_append_drop _ _
  · rw [List.all_append, Bool.and_eq_true]
    constructor
    · apply List.all_eq_true.mpr
      intro m hm
      have hm' : m ∈ adapted_transcript request := List.mem_of_mem_drop hm
      unfold adapted_transcript at hm'
      rw [conversation_to_chat_messages_eq_map] at hm'
      rcases List.mem_map.mp hm' with ⟨u, _, rfl⟩
      by_cases hu : u.role = "agent" <;> simp [hu]
    · apply List.all_eq_true.mpr
      intro m hm
      unfold nudge_tail at hm
      by_cases hr : request.interaction_type = some "reminder_required" <;>
        simp [hr] at hm
      subst hm
      simp [nudge_message]
  · unfold prepare_prompt
    simp [conversation_to_chat_messages]

/-- Claim C5: with an empty (or missing) transcript and interaction type
"reminder_required" the assembled prompt is exactly the system message followed
by the silence nudge; and for any interaction type other than
"reminder_required" no nudge message is appended — the prompt is exactly the
system message followed by the transcript window. -/
theorem C5_reminder_nudge :
    (∀ request : Request,
      (request.transcript = none ∨ request.transcript = some []) →
      request.interaction_type = some "reminder_required" →
      prepare_prompt request =
        [{ role := "system", content := SYSTEM_PROMPT }, nudge_message]) ∧
    (∀ request : Request,
      request.interaction_type ≠ some "reminder_required" →
      prepare_prompt request =
        { role := "system", content := SYSTEM_PROMPT } :: transcript_window request) := by
  constructor
  · intro request htr hit
    rw [prepare_prompt_eq request]
    unfold transcript_window adapted_transcript request_transcript nudge_tail
    rcases htr with h | h <;>
      simp [h, hit, conversation_to_chat_messages]
  · intro request hit
    rw [prepare_prompt_eq request]
    unfold nudge_tail
    simp [hit]

/-- Witness for C5 at concrete requests: a reminder request with no transcript
yields exactly the system message and the nudge; a response_required request
with no transcript yields exactly the system message. -/
theorem C5_reminder_nudge_witness :
    prepare_prompt ⟨some "reminder_required", 0, none, none⟩ =
      [{ role := "system", content := SYSTEM_PROMPT }, nudge_message] ∧
    prepare_prompt ⟨some "response_required", 0, none, none⟩ =
      [{ role := "system", content := SYSTEM_PROMPT }] := by
  constructor
  · exact C5_reminder_nudge.1 ⟨some "reminder_required", 0, none, none⟩ (Or.inl rfl) rfl
  · have h := C5_reminder_nudge.2 ⟨some "response_required", 0, none, none⟩ (by decide)
    rw [h]
    rfl

/-- An outbound JSON frame sent over the WebSocket (`server.py`,
`llm_groq.py`): the config frame, a response frame
`{response_type: "response", response_id, content, content_complete, end_call}`,
or a ping_pong echo `{response_type: "ping_pong", timestamp}` (where the
echoed timestamp may be missing, since the code reads
`request.get("timestamp")`). -/
inductive OutboundFrame where
  | config (auto_reconnect : Bool) (call_details : Bool)
  | response (response_id : Int) (content : String)
      (content_complete : Bool) (end_call : Bool)
  | ping_pong (timestamp : Option Int)
deriving DecidableEq, Repr

/-- The delta of one streamed choice; `delta.content` may be absent. -/
structure Delta where
  content : Option String
deriving DecidableEq, Repr

/-- One choice of a streamed chunk; its delta may be absent. -/
structure Choice where
  delta : Option Delta
deriving DecidableEq, Repr

/-- One chunk of the Groq completion stream: a (possibly empty) list of
choices. -/
structure Chunk where
  choices : List Choice
deriving DecidableEq, Repr

/-- The content a chunk contributes, mirroring `draft_response` lines 139-142
of `llm_groq.py`: `delta = chunk.choices[0].delta if chunk.choices else None;
if not delta or not delta.content: continue`. Python truthiness makes both a
missing content and the empty string fall to `continue`, so the result is
`none` (chunk skipped) unless the first choice has a delta with non-empty
content. -/
def chunk_delta_content (chunk : Chunk) : Option String :=
  match chunk.choices with
  | [] => none
  | choice :: _ =>
    match choice.delta with
    | none => none
    | some delta =>
      match delta.content with
      | none => none
      | some s => if s = "" then none else some s

/-- The partial response frames relayed by the `async for` loop of
`draft_response` (`llm_groq.py` lines 139-152): one frame per content-bearing
chunk, in arrival order, each `{response_type: "response", response_id,
content: delta.content, content_complete: False, end_call: False}`; chunks
without content are skipped by `continue`. -/
def chunk_frames (response_id : Int) : List Chunk → List OutboundFrame
  | [] => []
  | chunk :: rest =>
    match chunk_delta_content chunk with
    | none => chunk_frames response_id rest
    | some s => .response response_id s false false :: chunk_frames response_id rest

/-- The final frame of `draft_response` (`llm_groq.py` lines 154-162). -/
def final_frame (response_id : Int) : OutboundFrame :=
  .response response_id "" true false

/-- The observable behaviour of one upstream completion call: the chunks the
`async for` loop fully processed (received and relayed), and whether the call
raised an exception — either at `create(...)` (then `chunks = []`) or while
iterating the stream, after the listed chunks were processed. -/
structure StreamOutcome where
  chunks : List Chunk
  failed : Bool
deriving DecidableEq, Repr

/-- The observable result of `GroqLlmClient.draft_response`: the messages sent
upstream, the frames sent to the WebSocket peer in order, whether an error was
logged, and whether an exception escaped to the caller. -/
structure DraftResult where
  sent_messages : List ChatMessage
  frames : List OutboundFrame
  logged_error : Bool
  propagated_exception : Bool
deriving DecidableEq, Repr

/-- `GroqLlmClient.draft_response` (`llm_groq.py` lines 124-167): builds the
prompt, issues one streamed completion call, relays one partial frame per
content-bearing chunk, and on normal exhaustion sends the final frame. The
whole call and loop sit in a `try` whose `except Exception` logs and swallows:
on failure the frames already relayed stay sent, no further frame (final or
error) is emitted, and nothing propagates to the session loop. -/
def draft_response (request : Request) (stream : StreamOutcome) : DraftResult :=
  let messages := prepare_prompt request
  let response_id := request.response_id
  if stream.failed then
    { sent_messages := messages,
      frames := chunk_frames response_id stream.chunks,
      logged_error := true,
      propagated_exception := false }
  else
    { sent_messages := messages,
      frames := chunk_frames response_id stream.chunks ++ [final_frame response_id],
      logged_error := false,
      propagated_exception := false }

theorem chunk_frames_eq_filterMap (response_id : Int) (chunks : List Chunk) :
    chunk_frames response_id chunks =
      (chunks.filterMap chunk_delta_content).map
        (fun s => .response response_id s false false) := by
  induction chunks with
  | nil => rfl
  | cons chunk rest ih =>
    unfold chunk_frames
    cases h : chunk_delta_content chunk <;>
      simp [List.filterMap_cons, h, ih]

/-- Counterexample to claim C1 as stated: a completed stream of k = 1 chunk
(one chunk whose choices list is empty, as terminal Groq chunks can be)
yields only the final frame — zero partial frames, not the one partial frame
per chunk the claim requires. -/
theorem C1_counterexample :
    (draft_response ⟨some "response_required", 7, none, none⟩
        ⟨[⟨[]⟩], false⟩).frames =
      [.response 7 "" true false] := by
  rfl

/-- Claim C1 amended: for every completion stream that completes after
producing the chunk list `chunks`, `draft_response` emits exactly one partial
frame per content-bearing chunk (one whose first choice carries a delta with
non-empty content), in arrival order, each carrying that content,
`content_complete = false` and the `response_id` of the request, followed by
one final frame with empty content and `content_complete = true`; the final
frame is emitted exactly once even when no chunk arrives. -/
theorem C1_streaming_relay (request : Request) (chunks : List Chunk) :
    (draft_response request ⟨chunks, false⟩).frames =
      (chunks.filterMap chunk_delta_content).map
        (fun s => .response request.response_id s false false)
        ++ [.response request.response_id "" true false] ∧
    (draft_response request ⟨chunks, false⟩).frames.length =
      (chunks.filterMap chunk_delta_content).length + 1 ∧
    (draft_response request ⟨[], false⟩).frames =
      [.response request.response_id "" true false] := by
  refine ⟨?_, ?_, rfl⟩
  · show chunk_frames request.response_id chunks ++ [final_frame request.response_id] = _
    rw [chunk_frames_eq_filterMap]
    rfl
  · show (chunk_frames request.response_id chunks ++ [final_frame request.response_id]).length = _
    rw [chunk_frames_eq_filterMap]
    simp

/-- Whether a frame is a response frame with `content_complete = true`. -/
def frame_content_complete : OutboundFrame → Bool
  | .response _ _ cc _ => cc
  | _ => false

/-- Counterexample to claim C2 as stated: when the upstream stream yields one
chunk with content "Hi" and then fails, the peer has already received one
partial frame for that turn — not the zero frames the claim requires. -/
theorem C2_counterexample :
    (draft_response ⟨some "response_required", 7, none, none⟩
        ⟨[⟨[⟨some ⟨some "Hi"⟩⟩]⟩], true⟩).frames =
      [.response 7 "Hi" false false] ∧
    (draft_response ⟨some "response_required", 7, none, none⟩
        ⟨[⟨[⟨some ⟨some "Hi"⟩⟩]⟩], true⟩).frames.length = 1 := by
  exact ⟨rfl, rfl⟩

theorem chunk_frames_not_complete (response_id : Int) (chunks : List Chunk) :
    (chunk_frames response_id chunks).all
      (fun f => !frame_content_complete f) = true := by
  induction chunks with
  | nil => rfl
  | cons chunk rest ih =>
    unfold chunk_frames
    cases h : chunk_delta_content chunk <;>
      simp_all [frame_content_complete]

/-- Claim C2 amended: when the upstream completion call fails — at request
issuance (zero chunks processed) or after the loop processed `chunks` — the
exception is caught and logged, nothing propagates to the session loop, the
frames sent for the turn are exactly the partial frames for the chunks already
processed (zero frames when the failure precedes the first chunk), and no
further frame is sent: no final frame (no frame with `content_complete = true`)
and no error frame. -/
theorem C2_failure_semantics (request : Request) (chunks : List Chunk) :
    (draft_response request ⟨chunks, true⟩).frames =
      chunk_frames request.response_id chunks ∧
    ((draft_response request ⟨chunks, true⟩).frames.all
      (fun f => !frame_content_complete f)) = true ∧
    (draft_response request ⟨chunks, true⟩).logged_error = true ∧
    (draft_response request ⟨chunks, true⟩).propagated_exception = false ∧
    (draft_response request ⟨[], true⟩).frames = [] := by
  exact ⟨rfl, chunk_frames_not_complete request.response_id chunks, rfl, rfl, rfl⟩

/-- The scripted opening frame sent by `GroqLlmClient.begin_message`
(`llm_groq.py` lines 82-91). -/
def begin_message_frame : OutboundFrame :=
  .response 0 "Hey there, am I speaking with Marcus?" true false

/-- The config frame sent once on connect by `websocket_endpoint`
(`server.py` lines 77-84): `auto_reconnect = True`, `call_details = True`. -/
def config_frame : OutboundFrame :=
  .config true true

/-- The observable result of handling one inbound frame in the session loop:
the frames sent in order, whether the LLM completion call was invoked, and
whether an upstream error was logged. -/
structure TurnResult where
  frames : List OutboundFrame
  llm_called : Bool
  logged_error : Bool
deriving DecidableEq, Repr

/-- One iteration of the receive/dispatch loop of `websocket_endpoint`
(`server.py` lines 87-113), given the behaviour `stream` of the upstream
completion call for the turn (irrelevant to the non-LLM branches):
`call_details` sends the opening message, `ping_pong` echoes the (possibly
missing) timestamp, `update_only` sends nothing, `response_required` and
`reminder_required` run `draft_response`, and any other interaction type is
logged and ignored with no outbound frame. -/
def handle_turn (request : Request) (stream : StreamOutcome) : TurnResult :=
  if request.interaction_type = some "call_details" then
    { frames := [begin_message_frame], llm_called := false, logged_error := false }
  else if request.interaction_type = some "ping_pong" then
    { frames := [.ping_pong request.timestamp], llm_called := false, logged_error := false }
  else if request.interaction_type = some "update_only" then
    { frames := [], llm_called := false, logged_error := false }
  else if request.interaction_type = some "response_required" ∨
      request.interaction_type = some "reminder_required" then
    let result := draft_response request stream
    { frames := result.frames, llm_called := true, logged_error := result.logged_error }
  else
    { frames := [], llm_called := false, logged_error := false }

/-- All frames a session ever sends, for a session whose loop handles the given
turns before the connection closes: the config frame on connect, then the
frames of each turn in order (`server.py` lines 70-113). -/
def session_frames (turns : List (Request × StreamOutcome)) : List OutboundFrame :=
  config_frame :: (turns.map (fun turn => (handle_turn turn.1 turn.2).frames)).flatten

/-- Claim C6: an inbound frame with interaction type "call_details" makes the
session controller send exactly one outbound frame — the complete scripted
opening response with `response_id = 0`, content "Hey there, am I speaking with
Marcus?", `content_complete = true` and `end_call = false` — without invoking
the LLM completion call. -/
theorem C6_call_details (request : Request) (stream : StreamOutcome) :
    handle_turn { request with interaction_type := some "call_details" } stream =
      { frames := [.response 0 "Hey there, am I speaking with Marcus?" true false],
        llm_called := false,
        logged_error := false } := by
  rfl

/-- Claim C7: an inbound frame with interaction type "ping_pong" carrying a
timestamp t makes the session controller send exactly one outbound frame, a
ping_pong frame echoing t, with no LLM call and no other frame; the handler
result depends on nothing else, so no session state changes. -/
theorem C7_ping_pong (request : Request) (stream : StreamOutcome) (t : Int) :
    handle_turn
        { request with interaction_type := some "ping_pong", timestamp := some t }
        stream =
      { frames := [.ping_pong (some t)], llm_called := false, logged_error := false } := by
  rfl

/-- Whether a frame is a response frame requesting call termination. -/
def frame_end_call : OutboundFrame → Bool
  | .response _ _ _ ec => ec
  | _ => false

theorem chunk_frames_no_end_call (response_id : Int) (chunks : List Chunk) :
    (chunk_frames response_id chunks).all (fun f => !frame_end_call f) = true := by
  induction chunks with
  | nil => rfl
  | cons chunk rest ih =>
    unfold chunk_frames
    cases h : chunk_delta_content chunk <;>
      simp_all [frame_end_call]

theorem draft_response_no_end_call (request : Request) (stream : StreamOutcome) :
    ((draft_response request stream).frames.all (fun f => !frame_end_call f)) = true := by
  cases stream with
  | mk chunks failed =>
    cases failed
    · show ((chunk_frames request.response_id chunks ++
          [final_frame request.response_id]).all (fun f => !frame_end_call f)) = true
      rw [List.all_append, chunk_frames_no_end_call]
      rfl
    · exact chunk_frames_no_end_call request.response_id chunks

theorem handle_turn_no_end_call (request : Request) (stream : StreamOutcome) :
    ((handle_turn request stream).frames.all (fun f => !frame_end_call f)) = true := by
  unfold handle_turn
  split
  · rfl
  · split
    · rfl
    · split
      · rfl
      · split
        · exact draft_response_no_end_call request stream
        · rfl

/-- Claim C10: every frame the server ever emits on a session — the config
frame, the call_details opening line, every ping_pong echo, every partial frame
and every final frame — has `end_call = false`; no operation sends a frame
requesting call termination. -/
theorem C10_no_end_call (turns : List (Request × StreamOutcome)) :
    ((session_frames turns).all (fun f => !frame_end_call f)) = true := by
  induction turns with
  | nil => rfl
  | cons turn rest ih =>
    simp only [session_frames, List.map_cons, List.flatten_cons, List.all_cons,
      List.all_append] at ih ⊢
    rw [handle_turn_no_end_call]
    simpa using ih

/-- An inbound webhook POST as the handler observes it (`server.py` lines
36-54): the JSON serialization of the parsed body (`json.dumps(body)`, the
string passed to the verifier), the optional `event` field of the body, and the
optional `x-retell-signature` header. -/
structure WebhookRequest where
  body_json : String
  event : Option String
  signature : Option String
deriving DecidableEq, Repr

/-- The two response bodies the webhook handler can return: the 401 body
mapping to the JSON object with key "error" and value "Invalid signature", and
the 200 body mapping to the JSON object with key "received" and value true. -/
inductive WebhookResponseBody where
  | errorInvalidSignature
  | received
deriving DecidableEq, Repr

/-- The observable outcome of one webhook POST: HTTP status, response body, and
whether the handler reached the event-dispatch section (every event, known or
unknown, is logged there). -/
structure WebhookOutcome where
  status : Nat
  body : WebhookResponseBody
  event_logged : Bool
deriving DecidableEq, Repr

/-- Python truthiness of a possibly-missing string: `None` and the empty string
are falsy (`server.py` line 27 `if os.getenv("RETELL_API_KEY")` and line 41
`if retell_client and request.headers.get("x-retell-signature")`). -/
def truthy : Option String → Bool
  | none => false
  | some s => s ≠ ""

/-- The `/webhook` handler (`server.py` lines 36-65), with the external
`Retell.verify` collaborator abstracted as the function argument `verify`
applied to (serialized body, configured API key, signature header).
`retell_client` exists iff the `RETELL_API_KEY` value is truthy (line 27), and
signature verification runs only when additionally the signature header is
truthy; an invalid signature short-circuits to 401 without reaching the
event-dispatch section, and every other path logs the event and returns 200
with the received body. -/
def webhook (verify : String → String → String → Bool)
    (retell_api_key : Option String) (request : WebhookRequest) : WebhookOutcome :=
  if truthy retell_api_key && truthy request.signature then
    if verify request.body_json (retell_api_key.getD "") (request.signature.getD "") then
      { status := 200, body := .received, event_logged := true }
    else
      { status := 401, body := .errorInvalidSignature, event_logged := false }
  else
    { status := 200, body := .received, event_logged := true }

/-- Counterexample to claim C8 as stated: a verification secret is configured
("k") and the request bears a signature header whose value — the empty string —
the verifier rejects (the verifier here rejects everything), yet the handler
returns 200 and processes the event, because Python truthiness treats the
empty header value like an absent one and skips verification. -/
theorem C8_counterexample :
    (fun _ _ _ => false : String → String → String → Bool) "body" "k" "" = false ∧
    webhook (fun _ _ _ => false) (some "k") ⟨"body", some "call_started", some ""⟩ =
      { status := 200, body := .received, event_logged := true } := by
  exact ⟨rfl, rfl⟩

/-- Claim C8 amended: when a verification secret is configured and the webhook
POST bears a non-empty signature header that the verifier rejects, the handler
returns status 401 with the invalid-signature error body and does not process
the event; and when no secret is configured (the key is absent or empty), every
payload is accepted with status 200 and the received body. -/
theorem C8_webhook_signature :
    (∀ (verify : String → String → String → Bool) (key sig : String)
        (request : WebhookRequest),
      key ≠ "" →
      request.signature = some sig →
      sig ≠ "" →
      verify request.body_json key sig = false →
      webhook verify (some key) request =
        { status := 401, body := .errorInvalidSignature, event_logged := false }) ∧
    (∀ (verify : String → String → String → Bool) (key : Option String)
        (request : WebhookRequest),
      truthy key = false →
      webhook verify key request =
        { status := 200, body := .received, event_logged := true }) := by
  constructor
  · intro verify key sig request hkey hsig hne hverify
    unfold webhook
    rw [hsig]
    simp [truthy, hkey, hne, hverify]
  · intro verify key request hkey
    unfold webhook
    rw [hkey]
    rfl

/-- Witness for C8 amended at concrete inputs: with key "k" and the non-empty
signature "bad" rejected by an always-rejecting verifier the outcome is the
401 rejection; with no key configured the same request is accepted. -/
theorem C8_webhook_signature_witness :
    webhook (fun _ _ _ => false) (some "k") ⟨"body", some "call_started", some "bad"⟩ =
      { status := 401, body := .errorInvalidSignature, event_logged := false } ∧
    webhook (fun _ _ _ => false) none ⟨"body", some "call_started", some "bad"⟩ =
      { status := 200, body := .received, event_logged := true } := by
  constructor
  · exact C8_webhook_signature.1 (fun _ _ _ => false) "k" "bad"
      ⟨"body", some "call_started", some "bad"⟩ (by decide) rfl (by decide) rfl
  · exact C8_webhook_signature.2 (fun _ _ _ => false) none
      ⟨"body", some "call_started", some "bad"⟩ rfl

/-- Claim C9: when the incoming webhook request carries no x-retell-signature
header, verification is skipped entirely — whatever key is configured and
whatever the verifier would say, the request is accepted with status 200, the
received body, and the event processed; the outcome does not depend on the
verifier at all. -/
theorem C9_missing_signature_header
    (v v2 : String → String → String → Bool) (key : Option String)
    (body_json : String) (event : Option String) :
    webhook v key ⟨body_json, event, none⟩ =
      { status := 200, body := .received, event_logged := true } ∧
    webhook v key ⟨body_json, event, none⟩ = webhook v2 key ⟨body_json, event, none⟩ := by
  constructor
  · unfold webhook
    simp [truthy]
  · unfold webhook
    simp [truthy]
